import Mathlib

/-!
Verification of the decision-and-sandboxed-execution subsystem of the
rag_chat_bot repository: the static code validator (`is_safe_code`), the
output sanitizer (`sanitize_code_output`), the execution sandbox
(`CodeExecutor.execute_code`), the code generator fallback
(`CodeExecutor.generate_code`) and the conversation memory manager
(`MemoryManager.add_message` / `_check_and_summarize` / `_summarize_memory`).

External capabilities (the Python parser `ast.parse`, the `exec` runtime,
`traceback.format_exc`, and the LLM calls) are modelled as explicit
parameters or small faithful models; everything the repository's own code
does is translated directly from the source.
-/

/-! ## A small matcher for the validator's regular expressions

`security.py` checks its `DANGEROUS_PATTERNS` with `re.search`.  The five
patterns only use literals, `.` (any character), `\s*`, `\s+`, `[a-zA-Z]+`
and a trailing alternation of literal strings, so they are compiled here
into sequences of atoms; a top-level alternation is expanded into one atom
sequence per alternative (`re.search` succeeds iff one alternative does).
The matcher backtracks, so it agrees with `re.search` on these patterns. -/

/-- Python's regex class whitespace characters matched by a backslash-s atom. -/
def pyWs (c : Char) : Bool :=
  c = ' ' || c = '\t' || c = '\n' || c = '\r' || c = '\x0b' || c = '\x0c'

/-- ASCII letters, the class written a-zA-Z in the dunder pattern. -/
def asciiLetter (c : Char) : Bool :=
  ('a' ≤ c && c ≤ 'z') || ('A' ≤ c && c ≤ 'Z')

/-- One atom of a compiled pattern. -/
inductive RAtom where
  | lit : List Char → RAtom
  | anyChar : RAtom
  | wsStar : RAtom
  | wsPlus : RAtom
  | letterStar : RAtom
  | letterPlus : RAtom

/-- Does the atom sequence match some prefix of `cs` (with backtracking)?
Structural recursion on a fuel counter: every recursive call strictly
decreases the measure `2 * cs.length + atoms.length`, so as long as the
fuel exceeds that measure the fuel case is never reached. -/
def matchFromF : Nat → List RAtom → List Char → Bool
  | 0, _, _ => false
  | _ + 1, [], _ => true
  | fuel + 1, .lit l :: rest, cs =>
      l.isPrefixOf cs && matchFromF fuel rest (cs.drop l.length)
  | _ + 1, .anyChar :: _, [] => false
  | fuel + 1, .anyChar :: rest, _ :: cs => matchFromF fuel rest cs
  | fuel + 1, .wsStar :: rest, [] => matchFromF fuel rest []
  | fuel + 1, .wsStar :: rest, c :: cs =>
      matchFromF fuel rest (c :: cs) || (pyWs c && matchFromF fuel (.wsStar :: rest) cs)
  | _ + 1, .wsPlus :: _, [] => false
  | fuel + 1, .wsPlus :: rest, c :: cs => pyWs c && matchFromF fuel (.wsStar :: rest) cs
  | fuel + 1, .letterStar :: rest, [] => matchFromF fuel rest []
  | fuel + 1, .letterStar :: rest, c :: cs =>
      matchFromF fuel rest (c :: cs) || (asciiLetter c && matchFromF fuel (.letterStar :: rest) cs)
  | _ + 1, .letterPlus :: _, [] => false
  | fuel + 1, .letterPlus :: rest, c :: cs => asciiLetter c && matchFromF fuel (.letterStar :: rest) cs

/-- Match of an atom sequence against a prefix of `cs`, with enough fuel. -/
def matchFrom (atoms : List RAtom) (cs : List Char) : Bool :=
  matchFromF (2 * cs.length + atoms.length + 1) atoms cs

/-- Does the atom sequence match starting at some position of `cs`
(the semantics of `re.search` for one alternative)? -/
def searchAux (r : List RAtom) : List Char → Bool
  | [] => matchFrom r []
  | c :: cs => matchFrom r (c :: cs) || searchAux r cs

/-- `re.search` over an alternation of compiled atom sequences. -/
def reSearch (pat : List (List RAtom)) (s : String) : Bool :=
  pat.any (fun r => searchAux r s.data)

/-- A literal-string atom. -/
def litS (s : String) : RAtom := .lit s.data

/-- Substring scan: does `needle` occur as a prefix of some suffix? -/
def containsSubAux (needle : List Char) : List Char → Bool
  | [] => needle.isPrefixOf []
  | c :: cs => needle.isPrefixOf (c :: cs) || containsSubAux needle cs

/-- Plain substring containment, Python's `needle in haystack` on strings. -/
def containsSub (s sub : String) : Bool :=
  containsSubAux sub.data s.data

/-! ## `utils/security.py`: the static validator and the output sanitizer -/

/-- `DANGEROUS_MODULES` of `security.py`, in source order. -/
def DANGEROUS_MODULES : List String :=
  ["os", "subprocess", "sys", "shutil", "socket", "requests", "urllib",
   "ftplib", "paramiko", "telnetlib", "smtplib", "http.server", "socketserver"]

/-- `DANGEROUS_FUNCTIONS` of `security.py`, in source order. -/
def DANGEROUS_FUNCTIONS : List String :=
  ["eval", "exec", "compile", "globals", "locals", "getattr", "setattr", "delattr",
   "__import__", "open", "file", "input", "raw_input"]

/-- The atoms of a denylisted module name inside the import pattern's
alternation: the module string is spliced into the regex verbatim, so its
dot (in http.server) is the any-character metacharacter. -/
def moduleAtoms (m : String) : List RAtom :=
  m.data.map (fun c => if c = '.' then RAtom.anyChar else RAtom.lit [c])

/-- Source text of the last entry of `DANGEROUS_PATTERNS`, built exactly as
in the source from the joined module list. -/
def importPatternSource : String :=
  "import\\s+(?:" ++ String.intercalate "|" DANGEROUS_MODULES ++ ")"

/-- `DANGEROUS_PATTERNS` of `security.py`, in source order: each pattern's
source text (used verbatim in the rejection reason) paired with its
compiled form for the matcher. -/
def DANGEROUS_PATTERNS : List (String × List (List RAtom)) :=
  [("__[a-zA-Z]+__", [[litS "__", .letterPlus, litS "__"]]),
   ("sys\\s*\\.\\s*exit", [[litS "sys", .wsStar, litS ".", .wsStar, litS "exit"]]),
   ("os\\s*\\.\\s*system", [[litS "os", .wsStar, litS ".", .wsStar, litS "system"]]),
   ("subprocess\\s*\\.\\s*(?:call|run|Popen)",
     [[litS "subprocess", .wsStar, litS ".", .wsStar, litS "call"],
      [litS "subprocess", .wsStar, litS ".", .wsStar, litS "run"],
      [litS "subprocess", .wsStar, litS ".", .wsStar, litS "Popen"]]),
   (importPatternSource,
     DANGEROUS_MODULES.map (fun m => [litS "import", RAtom.wsPlus] ++ moduleAtoms m))]

/-- The first dangerous pattern `re.search` finds in the code, if any
(the first loop of `is_safe_code`). -/
def findDangerousPattern (code : String) : Option String :=
  (DANGEROUS_PATTERNS.find? (fun p => reSearch p.2 code)).map (fun p => p.1)

/-- The callee shape of a Python `ast.Call` node, as far as the walk of
`is_safe_code` inspects it. -/
inductive PyFunc where
  | name : String → PyFunc
  | attrOfName : String → String → PyFunc
  | otherFunc : PyFunc
deriving DecidableEq

/-- One node of the parsed syntax tree in the order `ast.walk` yields them,
keeping exactly the fields `is_safe_code` inspects. -/
inductive PyNode where
  | importNames : List String → PyNode
  | importFromModule : Option String → PyNode
  | callNode : PyFunc → PyNode
  | otherNode : PyNode
deriving DecidableEq

/-- The violation one AST node triggers in the walk of `is_safe_code`,
with the exact reason strings of the source. -/
def nodeViolation : PyNode → Option String
  | .importNames names =>
      (names.find? (fun nm => DANGEROUS_MODULES.contains nm)).map
        (fun nm => "Importación no permitida: " ++ nm)
  | .importFromModule m =>
      match m with
      | some nm =>
          if DANGEROUS_MODULES.contains nm then
            some ("Importación desde módulo no permitido: " ++ nm)
          else none
      | none => none
  | .callNode f =>
      match f with
      | .name fid =>
          if DANGEROUS_FUNCTIONS.contains fid then
            some ("Función potencialmente peligrosa: " ++ fid)
          else none
      | .attrOfName vid at_ =>
          if DANGEROUS_MODULES.contains vid then
            some ("Módulo potencialmente peligroso: " ++ vid ++ "." ++ at_)
          else none
      | .otherFunc => none
  | .otherNode => none

/-- The first violation of the `ast.walk` loop of `is_safe_code`. -/
def findDangerousNode (nodes : List PyNode) : Option String :=
  nodes.findSome? nodeViolation

/-- `is_safe_code` of `security.py`.  The call to the standard-library
parser `ast.parse` is external to the repository, so its outcome (the
walked node list, or the stringified syntax error) is a parameter; the
three gates and all reason strings are the source's. -/
def is_safe_code (code : String) (parsed : Except String (List PyNode)) : Bool × String :=
  match findDangerousPattern code with
  | some patSrc => (false, "Patrón de código potencialmente peligroso detectado: " ++ patSrc)
  | none =>
    match parsed with
    | .error e => (false, "Error de sintaxis: " ++ e)
    | .ok nodes =>
      match findDangerousNode nodes with
      | some msg => (false, msg)
      | none => (true, "")

/-- The truncation marker appended by `sanitize_code_output`. -/
def truncationMarker : String := "... (salida truncada)"

/-- The character class removed by `sanitize_code_output`'s `re.sub`:
`[\x00-\x09\x0b\x0c\x0e-\x1f\x7f-\x9f]` (note that it includes tab, 0x09,
and excludes carriage return, 0x0d). -/
def strippedControl (c : Char) : Bool :=
  (c.toNat ≤ 9) || (c.toNat = 11) || (c.toNat = 12) ||
  (14 ≤ c.toNat && c.toNat ≤ 31) || (127 ≤ c.toNat && c.toNat ≤ 159)

/-- Removal of every character of the stripped class (`re.sub` with an
empty replacement). -/
def stripControls (s : String) : String :=
  String.mk (s.data.filter (fun c => !(strippedControl c)))

/-- `sanitize_code_output` of `security.py`: truncate to the first 10000
characters plus the marker, then strip the control-character class. -/
def sanitize_code_output (output : String) : String :=
  let truncated :=
    if output.length > 10000 then output.take 10000 ++ truncationMarker else output
  stripControls truncated

/-! ## `core/code_executor.py`: the execution sandbox and the generator -/

/-- A Python exception as the sandbox boundary sees it: its rendered
message (`str(e)`), whether its class derives from `Exception` (only such
faults are caught by the `except Exception` clause; `SystemExit`,
`KeyboardInterrupt` and other bare-`BaseException` faults are not), and
the body of its formatted traceback. -/
structure PyExc where
  message : String
  isExceptionSubclass : Bool
  tbBody : String
deriving DecidableEq

/-- Model of the standard library's `traceback.format_exc()` for an active
exception: the fixed header line followed by the frames and the exception
line, hence never empty. -/
def format_exc (e : PyExc) : String :=
  "Traceback (most recent call last):\n" ++ e.tbBody

/-- Outcome of running a code string with `exec` under redirected streams:
what reached the stdout and stderr buffers, and either the final local
namespace (each binding already rendered with `str`) or the raised fault. -/
structure ExecOutcome where
  stdoutText : String
  stderrText : String
  result : Except PyExc (List (String × String))

/-- The dictionary `execute_code` returns; `vars` is the dict's key named
for the local variables (a reserved word here).  The Python dict does not
carry that key on the error branches nor a `traceback` key outside the
fault branch; absent keys are `none`. -/
structure ExecutionResult where
  status : String
  stdout : String
  stderr : String
  error : Option String
  vars : Option (List (String × String))
  traceback : Option String
deriving DecidableEq

deriving instance DecidableEq for Except

/-- Python's `str.startswith`, on the character level. -/
def pyStartsWith (s pre : String) : Bool := pre.data.isPrefixOf s.data

/-- `CodeExecutor.allowed_imports`: module key and the import line that is
prepended for it, in source order. -/
def allowed_imports : List (String × String) :=
  [("math", "import math"),
   ("random", "import random"),
   ("datetime", "from datetime import datetime, date, timedelta"),
   ("statistics", "import statistics"),
   ("pandas", "import pandas as pd"),
   ("numpy", "import numpy as np"),
   ("re", "import re"),
   ("collections", "import collections")]

/-- The names the preamble's import lines bind in the execution namespace
before the snippet itself runs. -/
def preamble_bindings : List String :=
  ["math", "random", "datetime", "date", "timedelta", "statistics", "pd",
   "np", "re", "collections"]

/-- `augmented_code` as built in `execute_code`: the joined import lines,
a blank line, then the snippet. -/
def augmented_code (code : String) : String :=
  String.intercalate "\n" (allowed_imports.map (fun kv => kv.2)) ++ "\n\n" ++ code

/-- `CodeExecutor.execute_code`.  `pyParse` stands for `ast.parse` inside
`is_safe_code` and `execSem` for the behaviour of `exec` on the augmented
code (both external to the repository).  A fault whose class is not an
`Exception` subclass escapes the `except Exception` handler, modelled by
the `Except.error` result. -/
def execute_code (pyParse : String → Except String (List PyNode))
    (execSem : String → ExecOutcome) (code : String) :
    Except PyExc ExecutionResult :=
  match is_safe_code code (pyParse code) with
  | (is_safe, error_message) =>
    if !is_safe then
      .ok { status := "error", stdout := "",
            stderr := "Código potencialmente peligroso detectado: " ++ error_message,
            error := some error_message, vars := none, traceback := none }
    else
      match (execSem (augmented_code code)).result with
      | .ok localVars =>
          .ok { status := "success",
                stdout := sanitize_code_output (execSem (augmented_code code)).stdoutText,
                stderr := sanitize_code_output (execSem (augmented_code code)).stderrText,
                error := none,
                vars := some (localVars.filter (fun kv => !(pyStartsWith kv.1 "_"))),
                traceback := none }
      | .error e =>
          if e.isExceptionSubclass then
            .ok { status := "error",
                  stdout := sanitize_code_output (execSem (augmented_code code)).stdoutText,
                  stderr := sanitize_code_output (execSem (augmented_code code)).stderrText,
                  error := some e.message,
                  vars := none,
                  traceback := some (format_exc e) }
          else
            .error e

/-- The prompt `generate_code` builds around the user query (the
triple-quoted f-string of the source, with its indentation). -/
def code_generation_prompt (query : String) : String :=
  "\n        El usuario ha realizado una consulta que requiere cálculos precisos o ejecución de código:\n        \n        \"" ++ query ++ "\"\n        \n        Genera ÚNICAMENTE código Python para resolver esta consulta. El código debe:\n        1. Ser claro, eficiente y seguir las mejores prácticas\n        2. Incluir comentarios explicativos\n        3. Manejar posibles errores\n        4. Mostrar resultados con print() para que sean visibles\n        5. Usar bibliotecas estándar o numpy/pandas si es necesario\n        \n        NO expliques el código, NO incluyas markdown. Proporciona SOLAMENTE el código Python.\n        "

/-- The fallback snippet of `generate_code`'s exception handler, with the
exception's message interpolated into it. -/
def fallback_snippet (msg : String) : String :=
  "# Error al generar código\nprint('No se pudo generar código: " ++ msg ++ "')"

/-- The markdown post-processing of `generate_code`'s success branch. -/
def extract_code (text : String) : String :=
  if containsSub text "```python" then
    ((((text.splitOn "```python").getD 1 "").splitOn "```").getD 0 "").trim
  else if containsSub text "```" then
    ((((text.splitOn "```").getD 1 "").splitOn "```").getD 0 "").trim
  else text

/-- `CodeExecutor.generate_code`.  `invoke` stands for `llm.invoke`: its
result is the response text, or the raised exception's message. -/
def generate_code (invoke : String → Except String String) (query : String) : String :=
  match invoke (code_generation_prompt query) with
  | .ok content => extract_code content
  | .error e => fallback_snippet e

/-! ## `core/memory_manager.py`: the conversation memory -/

/-- One entry of the conversation history. -/
structure ConversationEntry where
  role : String
  content : String
  timestamp : String
deriving DecidableEq

/-- The two memory-related fields of `config/settings.py` (environment
sourced; their defaults are 2000 and 4). -/
structure Settings where
  max_memory_tokens : Nat
  char_to_token_ratio : Nat
deriving DecidableEq

/-- The defaults of `config/settings.py` for the memory fields. -/
def defaultSettings : Settings :=
  { max_memory_tokens := 2000, char_to_token_ratio := 4 }

/-- The dict literal appended by `add_message`. -/
def mkEntry (role content timestamp : String) : ConversationEntry :=
  { role := role, content := content, timestamp := timestamp }

/-- `recent_history` of `_summarize_memory`: the last four entries when
the history has at least four, otherwise the empty list. -/
def recent_history_of (h : List ConversationEntry) : List ConversationEntry :=
  if h.length ≥ 4 then h.drop (h.length - 4) else []

/-- `history_to_summarize` of `_summarize_memory`: everything before the
last four entries when the history has at least four, otherwise the whole
history. -/
def history_to_summarize_of (h : List ConversationEntry) : List ConversationEntry :=
  if h.length ≥ 4 then h.take (h.length - 4) else h

/-- `history_text` as accumulated in `_summarize_memory`: role upper-cased,
colon, content, blank line. -/
def history_text (l : List ConversationEntry) : String :=
  l.foldl (fun acc e => acc ++ e.role.toUpper ++ ": " ++ e.content ++ "\n\n") ""

/-- The summarization prompt of `_summarize_memory` (triple-quoted
f-string of the source, with its indentation). -/
def summary_prompt (l : List ConversationEntry) : String :=
  "\n            Resume la siguiente conversación de manera concisa pero manteniendo \n            los puntos clave, el contexto importante y cualquier información factual relevante.\n            El resumen debe ser completo pero compacto.\n            \n            CONVERSACIÓN:\n            " ++ history_text l ++ "\n            \n            RESUMEN CONCISO:\n            "

/-- The system-role entry `_summarize_memory` builds around the summary. -/
def summary_entry (summary timestamp : String) : ConversationEntry :=
  { role := "system",
    content := "Resumen de la conversación previa: " ++ summary,
    timestamp := timestamp }

/-- `MemoryManager._summarize_memory`.  `summarizer` stands for
`self.summarizer_llm.invoke`: the summary text, or the raised exception's
message, in which case the `except` clause leaves the history as it was. -/
def summarize_memory (summarizer : String → Except String String) (ts : String)
    (h : List ConversationEntry) : List ConversationEntry :=
  if (history_to_summarize_of h).isEmpty then h
  else
    match summarizer (summary_prompt (history_to_summarize_of h)) with
    | .error _ => h
    | .ok summary => summary_entry summary ts :: recent_history_of h

/-- `MemoryManager._check_and_summarize`: no compaction at length ≤ 2;
otherwise estimate tokens as total characters over the ratio (integer
division) and compact when the estimate exceeds the ceiling. -/
def check_and_summarize (st : Settings) (summarizer : String → Except String String)
    (ts : String) (h : List ConversationEntry) : List ConversationEntry :=
  if h.length ≤ 2 then h
  else if (h.map (fun e => e.content.length)).sum / st.char_to_token_ratio
      > st.max_memory_tokens then
    summarize_memory summarizer ts h
  else h

/-- `MemoryManager.add_message`: append the new entry (timestamp `tsMsg`),
then evaluate the compaction trigger (a summary entry would carry
`tsSummary`). -/
def add_message (st : Settings) (summarizer : String → Except String String)
    (tsMsg tsSummary : String) (h : List ConversationEntry)
    (role content : String) : List ConversationEntry :=
  check_and_summarize st summarizer tsSummary (h ++ [mkEntry role content tsMsg])

/-! ## Concrete fixtures used by the claim theorems, their witnesses and
counterexamples.  Each parse value is the node list `ast.walk` yields for
the code string next to it (restricted to the inspected fields), and each
exec outcome is what Python's `exec` does on the corresponding augmented
code. -/

/-- The control characters of the claims' vocabulary: the C0 range, DEL
and the C1 range. -/
def isControlChar (c : Char) : Bool :=
  (c.toNat < 32) || (127 ≤ c.toNat && c.toNat ≤ 159)

/-- Parse of the snippet `import sys` (an Import node naming sys). -/
def c1Parse : String → Except String (List PyNode) :=
  fun _ => Except.ok [PyNode.importNames ["sys"]]

/-- An exec behaviour that would succeed with no bindings (never reached). -/
def c1Exec : String → ExecOutcome :=
  fun _ => { stdoutText := "", stderrText := "", result := Except.ok [] }

/-- The rendered local namespace left by the preamble's import lines. -/
def moduleLocals : List (String × String) :=
  [("math", "<module 'math' (built-in)>"),
   ("random", "<module 'random'>"),
   ("datetime", "<class 'datetime.datetime'>"),
   ("date", "<class 'datetime.date'>"),
   ("timedelta", "<class 'datetime.timedelta'>"),
   ("statistics", "<module 'statistics'>"),
   ("pd", "<module 'pandas'>"),
   ("np", "<module 'numpy'>"),
   ("re", "<module 're'>"),
   ("collections", "<module 'collections'>")]

/-- A `SystemExit` raised by the snippet `exit()`: its class derives from
`BaseException` but not from `Exception`, and `str(SystemExit())` is empty. -/
def systemExitExc : PyExc :=
  { message := "", isExceptionSubclass := false, tbBody := "SystemExit\n" }

/-- Parse of the snippet `exit()` (a call of the plain name exit). -/
def c3Parse : String → Except String (List PyNode) :=
  fun _ => Except.ok [PyNode.callNode (PyFunc.name "exit")]

/-- Exec of augmented `exit()`: nothing printed, `SystemExit` raised. -/
def c3Exec : String → ExecOutcome :=
  fun _ => { stdoutText := "", stderrText := "", result := Except.error systemExitExc }

/-- The `ZeroDivisionError` raised by `print(1/0)`. -/
def zeroDivExc : PyExc :=
  { message := "division by zero", isExceptionSubclass := true,
    tbBody := "ZeroDivisionError: division by zero\n" }

/-- Parse of the snippet `print(1/0)` (a call of the plain name print). -/
def c3wParse : String → Except String (List PyNode) :=
  fun _ => Except.ok [PyNode.callNode (PyFunc.name "print")]

/-- Exec of augmented `print(1/0)`: the fault hits before any output. -/
def c3wExec : String → ExecOutcome :=
  fun _ => { stdoutText := "", stderrText := "", result := Except.error zeroDivExc }

/-- Parse of the fallback snippet (one print call). -/
def c5FallbackParsed : Except String (List PyNode) :=
  Except.ok [PyNode.callNode (PyFunc.name "print")]

/-- Parse of the snippet `x = 1` (an assignment, nothing inspected). -/
def c7Parse : String → Except String (List PyNode) :=
  fun _ => Except.ok [PyNode.otherNode]

/-- Exec of augmented `x = 1`: the preamble's bindings plus x. -/
def c7Exec : String → ExecOutcome :=
  fun _ => { stdoutText := "", stderrText := "",
             result := Except.ok (moduleLocals ++ [("x", "1")]) }

/-- Exec of augmented `y = 2` followed by `_tmp = 3`. -/
def c7wExec : String → ExecOutcome :=
  fun _ => { stdoutText := "", stderrText := "",
             result := Except.ok (moduleLocals ++ [("y", "2"), ("_tmp", "3")]) }

/-- Parse of `import os` + `os.system('ls')`: the Import node and the
attribute call, in walk order. -/
def c9Parsed : Except String (List PyNode) :=
  Except.ok [PyNode.importNames ["os"], PyNode.callNode (PyFunc.attrOfName "os" "system")]

/-- Parse of `x = eval('2+2')` (a call of the plain name eval). -/
def c10Parse : String → Except String (List PyNode) :=
  fun _ => Except.ok [PyNode.callNode (PyFunc.name "eval")]

/-- A 4100-character message, long enough that two of them push the token
estimate over the default ceiling. -/
def bigContent : String := String.mk (List.replicate 4100 'a')

/-- A two-entry history carrying two long messages. -/
def c2History : List ConversationEntry :=
  [mkEntry "user" bigContent "t0", mkEntry "assistant" bigContent "t0"]

/-- A summarizer that always answers R. -/
def okSummarizer : String → Except String String := fun _ => Except.ok "R"

/-- A four-entry history of short messages. -/
def c2wHistory : List ConversationEntry :=
  [mkEntry "user" "hola" "a", mkEntry "assistant" "hola" "b",
   mkEntry "user" "hola" "c", mkEntry "assistant" "hola" "d"]

/-- A summarizer that always fails (its call raises). -/
def failSummarizer : String → Except String String :=
  fun _ => Except.error "boom"

/-! ## Helper lemmas -/

theorem isPrefixOf_append_self (l t : List Char) : l.isPrefixOf (l ++ t) = true := by
  induction l with
  | nil => simp
  | cons a as ih => simp [List.isPrefixOf, ih]

theorem containsSubAux_append_self (pre needle : List Char) :
    containsSubAux needle (pre ++ needle) = true := by
  induction pre with
  | nil =>
    cases needle with
    | nil => rfl
    | cons c cs =>
      have h := isPrefixOf_append_self (c :: cs) []
      rw [List.append_nil] at h
      simp [containsSubAux, h]
  | cons a pre ih => simp [containsSubAux, ih]

/-- A string always contains its own right-hand append part. -/
theorem containsSub_append_left (a b : String) : containsSub (a ++ b) b = true := by
  show containsSubAux b.data (a ++ b).data = true
  rw [String.data_append]
  exact containsSubAux_append_self a.data b.data

/-- Two characters with the same code point are equal. -/
theorem char_eq_of_toNat_eq {a b : Char} (h : a.toNat = b.toNat) : a = b :=
  Char.eq_of_val_eq (UInt32.toNat.inj h)

/-- The formatted traceback always starts with its header, so it is never
empty. -/
theorem format_exc_ne_empty (e : PyExc) : format_exc e ≠ "" := by
  intro h
  have hlen := congrArg String.length h
  rw [format_exc, String.length_append] at hlen
  have h35 : ("Traceback (most recent call last):\n" : String).length = 35 := rfl
  rw [h35] at hlen
  simp at hlen

/-! ## The claims -/

/-- C9: the Validator judges `import os` followed by `os.system('ls')`
unsafe, and the reason string names the denylisted module os (the lexical
gate fires on the os.system pattern, whose text contains the module's
name). -/
theorem C9_vet_import_os_system :
    (is_safe_code "import os\nos.system('ls')" c9Parsed).1 = false ∧
    containsSub (is_safe_code "import os\nos.system('ls')" c9Parsed).2 "os" = true := by
  decide

/-- C4 counterexample: a carriage return (a control character that is
neither newline nor tab) survives `sanitize_code_output` untouched, so the
result is not free of control characters other than newline and tab. -/
theorem C4_counterexample :
    sanitize_code_output "a\x0db" = "a\x0db" ∧
    isControlChar '\x0d' = true ∧
    ¬('\x0d' = '\n' ∨ '\x0d' = '\t') := by
  decide

/-- C4 amended: `sanitize_code_output` truncates an over-long string to
its first 10000 characters plus the truncation marker and then strips the
class `[\x00-\x09\x0b\x0c\x0e-\x1f\x7f-\x9f]`; consequently the result
contains no control characters other than newline and carriage return
(tab, 0x09, is stripped as well; carriage return, 0x0d, is kept). -/
theorem C4_sanitize_amended (output : String) :
    sanitize_code_output output =
      stripControls
        (if output.length > 10000 then output.take 10000 ++ truncationMarker else output) ∧
    ∀ c ∈ (sanitize_code_output output).data, isControlChar c = true →
      c = '\n' ∨ c = '\x0d' := by
  constructor
  · rfl
  · intro c hc hctl
    have hc' : strippedControl c = false := by
      simp only [sanitize_code_output, stripControls] at hc
      rw [List.mem_filter] at hc
      simpa using hc.2
    simp only [strippedControl, Bool.or_eq_false_iff, decide_eq_false_iff_not,
      Bool.and_eq_false_iff] at hc'
    simp only [isControlChar, Bool.or_eq_true, decide_eq_true_eq,
      Bool.and_eq_true] at hctl
    have h1013 : c.toNat = 10 ∨ c.toNat = 13 := by omega
    rcases h1013 with h | h
    · exact Or.inl (char_eq_of_toNat_eq (by rw [h]; rfl))
    · exact Or.inr (char_eq_of_toNat_eq (by rw [h]; rfl))

/-- C4 witness: the amended theorem applied to a concrete stream holding a
carriage return. -/
theorem C4_witness :
    sanitize_code_output "x\x0dy" =
      stripControls
        (if ("x\x0dy" : String).length > 10000 then
          ("x\x0dy" : String).take 10000 ++ truncationMarker
        else "x\x0dy") ∧
    ('\x0d' = '\n' ∨ '\x0d' = '\x0d') :=
  ⟨(C4_sanitize_amended "x\x0dy").1,
   (C4_sanitize_amended "x\x0dy").2 '\x0d' (by decide) (by decide)⟩

/-- C1 counterexample: on the input `import sys` the Sandbox's run
operation does consult the Validator and returns a validation-rejection
result instead of executing — the lexical import pattern fires and
`execute_code` answers with the rejection dictionary, whatever the
execution semantics would have done. -/
theorem C1_counterexample :
    execute_code c1Parse c1Exec "import sys" =
      Except.ok
        { status := "error", stdout := "",
          stderr := "Código potencialmente peligroso detectado: Patrón de código potencialmente peligroso detectado: "
            ++ importPatternSource,
          error := some ("Patrón de código potencialmente peligroso detectado: "
            ++ importPatternSource),
          vars := none, traceback := none } := by
  rfl

/-- C1 amended: `execute_code` re-validates its input: it calls
`is_safe_code` on every code string first and, whenever the verdict is
unsafe, returns the validation-rejection result (status error, empty
stdout, the verdict's reason in stderr and in the error field) instead of
executing. -/
theorem C1_execute_code_revalidates (pyParse : String → Except String (List PyNode))
    (execSem : String → ExecOutcome) (code : String)
    (hrejected : (is_safe_code code (pyParse code)).1 = false) :
    execute_code pyParse execSem code =
      Except.ok
        { status := "error", stdout := "",
          stderr := "Código potencialmente peligroso detectado: "
            ++ (is_safe_code code (pyParse code)).2,
          error := some (is_safe_code code (pyParse code)).2,
          vars := none, traceback := none } := by
  have hfull : is_safe_code code (pyParse code)
      = (false, (is_safe_code code (pyParse code)).2) := by
    rw [← hrejected]
  unfold execute_code
  rw [hfull]
  rfl

/-- C1 witness: the amended theorem applied to the concrete unsafe input
`import subprocess`. -/
theorem C1_witness :
    execute_code c1Parse c1Exec "import subprocess" =
      Except.ok
        { status := "error", stdout := "",
          stderr := "Código potencialmente peligroso detectado: "
            ++ (is_safe_code "import subprocess" (c1Parse "import subprocess")).2,
          error := some (is_safe_code "import subprocess" (c1Parse "import subprocess")).2,
          vars := none, traceback := none } :=
  C1_execute_code_revalidates c1Parse c1Exec "import subprocess" (by decide)

/-- C10: unsafe code is never executed: whenever `is_safe_code` rejects a
code string, `execute_code`'s result does not depend on the execution
semantics at all, and it is the rejection dictionary: status error, empty
stdout, the rejection message contained in stderr and equal to the error
field. -/
theorem C10_unsafe_never_executed (pyParse : String → Except String (List PyNode))
    (code msg : String)
    (hrejected : is_safe_code code (pyParse code) = (false, msg)) :
    ∀ execSem execSem' : String → ExecOutcome,
      execute_code pyParse execSem code = execute_code pyParse execSem' code ∧
      ∃ r : ExecutionResult, execute_code pyParse execSem code = Except.ok r ∧
        r.status = "error" ∧ r.stdout = "" ∧ containsSub r.stderr msg = true ∧
        r.error = some msg := by
  intro execSem execSem'
  unfold execute_code
  rw [hrejected]
  refine ⟨rfl, ⟨_, rfl, rfl, rfl, ?_, rfl⟩⟩
  exact containsSub_append_left "Código potencialmente peligroso detectado: " msg

/-- C10 witness: the theorem applied to `x = eval('2+2')` (rejected by the
structural walk) under two different execution semantics. -/
theorem C10_witness :
    execute_code c10Parse c1Exec "x = eval('2+2')" =
      execute_code c10Parse c7Exec "x = eval('2+2')" ∧
    ∃ r : ExecutionResult,
      execute_code c10Parse c1Exec "x = eval('2+2')" = Except.ok r ∧
      r.status = "error" ∧ r.stdout = "" ∧
      containsSub r.stderr "Función potencialmente peligrosa: eval" = true ∧
      r.error = some "Función potencialmente peligrosa: eval" :=
  C10_unsafe_never_executed c10Parse "x = eval('2+2')"
    "Función potencialmente peligrosa: eval" (by decide) c1Exec c7Exec

/-- C3 counterexample: the snippet `exit()` passes the Validator, and the
`SystemExit` its execution raises is not an `Exception` subclass, so the
`except Exception` boundary does not catch it: `execute_code` propagates
the fault to its caller instead of returning an error result. -/
theorem C3_counterexample :
    (is_safe_code "exit()" (c3Parse "exit()")).1 = true ∧
    execute_code c3Parse c3Exec "exit()" = Except.error systemExitExc := by
  exact ⟨by decide, rfl⟩

/-- C3 amended: for every runtime fault whose class derives from
`Exception` (a `BaseException`-only fault such as `SystemExit` escapes),
`execute_code` catches the fault at the boundary and returns status error,
the fault's message in the error field, a never-empty formatted trace, and
the sanitized partial stdout/stderr captured before the fault. -/
theorem C3_fault_caught (pyParse : String → Except String (List PyNode))
    (execSem : String → ExecOutcome) (code : String) (e : PyExc)
    (hsafe : (is_safe_code code (pyParse code)).1 = true)
    (hfault : (execSem (augmented_code code)).result = Except.error e)
    (hexc : e.isExceptionSubclass = true) :
    execute_code pyParse execSem code =
      Except.ok
        { status := "error",
          stdout := sanitize_code_output (execSem (augmented_code code)).stdoutText,
          stderr := sanitize_code_output (execSem (augmented_code code)).stderrText,
          error := some e.message,
          vars := none,
          traceback := some (format_exc e) } ∧
    format_exc e ≠ "" := by
  have hfull : is_safe_code code (pyParse code)
      = (true, (is_safe_code code (pyParse code)).2) := by
    rw [← hsafe]
  refine ⟨?_, format_exc_ne_empty e⟩
  unfold execute_code
  rw [hfull, hfault]
  simp only [hexc]
  rfl

/-- C3 witness: the amended theorem applied to `print(1/0)`, whose
execution raises a `ZeroDivisionError` before writing any output. -/
theorem C3_witness :
    execute_code c3wParse c3wExec "print(1/0)" =
      Except.ok
        { status := "error",
          stdout := sanitize_code_output (c3wExec (augmented_code "print(1/0)")).stdoutText,
          stderr := sanitize_code_output (c3wExec (augmented_code "print(1/0)")).stderrText,
          error := some zeroDivExc.message,
          vars := none,
          traceback := some (format_exc zeroDivExc) } ∧
    format_exc zeroDivExc ≠ "" :=
  C3_fault_caught c3wParse c3wExec "print(1/0)" zeroDivExc (by decide) rfl rfl

/-- C5 counterexample: the generation-failure fallback snippet embeds the
exception's message, so it is not always judged safe: for the exception
message `import os` the lexical import pattern fires and the Validator
rejects the fallback. -/
theorem C5_counterexample :
    generate_code (fun _ => Except.error "import os") "q" = fallback_snippet "import os" ∧
    (is_safe_code (fallback_snippet "import os") c5FallbackParsed).1 = false := by
  exact ⟨rfl, by decide⟩

/-- C5 amended: on any generation failure `generate_code` returns the
fallback snippet printing an error message with the exception's message
interpolated into it; the fallback is judged safe by the Validator for
benign messages — for the empty message in particular — but not for every
possible message. -/
theorem C5_fallback (invoke : String → Except String String) (query msg : String)
    (hfail : invoke (code_generation_prompt query) = Except.error msg) :
    generate_code invoke query = fallback_snippet msg ∧
    (is_safe_code (fallback_snippet "") c5FallbackParsed).1 = true := by
  constructor
  · unfold generate_code
    rw [hfail]
  · decide

/-- C5 witness: the amended theorem applied to a transport failure whose
exception message is `timeout`. -/
theorem C5_witness :
    generate_code (fun _ => Except.error "timeout") "q" = fallback_snippet "timeout" ∧
    (is_safe_code (fallback_snippet "") c5FallbackParsed).1 = true :=
  C5_fallback (fun _ => Except.error "timeout") "q" "timeout" rfl

/-- C7 counterexample: the snippet `x = 1` creates only the binding x, yet
the returned variables mapping also contains math (and the other preamble
bindings), because the prepended import lines execute in the same local
namespace: the mapping is not restricted to the snippet's own bindings. -/
theorem C7_counterexample :
    execute_code c7Parse c7Exec "x = 1" =
      Except.ok
        { status := "success", stdout := "", stderr := "", error := none,
          vars := some (moduleLocals ++ [("x", "1")]), traceback := none } ∧
    (moduleLocals ++ [("x", "1")]).any (fun kv => kv.1 == "math") = true ∧
    preamble_bindings.contains "math" = true := by
  refine ⟨by decide, by decide, by decide⟩

/-- C7 amended: on successful execution the variables mapping is exactly
the string-rendered, non-underscore-prefixed bindings of the final local
namespace — which the preamble's import lines populate as well, so it
contains the snippet's own public bindings plus the preamble's module
bindings. -/
theorem C7_variables_mapping (pyParse : String → Except String (List PyNode))
    (execSem : String → ExecOutcome) (code : String)
    (localVars : List (String × String))
    (hsafe : (is_safe_code code (pyParse code)).1 = true)
    (hok : (execSem (augmented_code code)).result = Except.ok localVars) :
    execute_code pyParse execSem code =
      Except.ok
        { status := "success",
          stdout := sanitize_code_output (execSem (augmented_code code)).stdoutText,
          stderr := sanitize_code_output (execSem (augmented_code code)).stderrText,
          error := none,
          vars := some (localVars.filter (fun kv => !(pyStartsWith kv.1 "_"))),
          traceback := none } := by
  have hfull : is_safe_code code (pyParse code)
      = (true, (is_safe_code code (pyParse code)).2) := by
    rw [← hsafe]
  unfold execute_code
  rw [hfull, hok]
  rfl

/-- C7 witness: the amended theorem applied to a snippet binding y and the
private name _tmp: the mapping keeps the preamble bindings and y and drops
_tmp. -/
theorem C7_witness :
    execute_code c7Parse c7wExec "y = 2\n_tmp = 3" =
      Except.ok
        { status := "success",
          stdout := sanitize_code_output (c7wExec (augmented_code "y = 2\n_tmp = 3")).stdoutText,
          stderr := sanitize_code_output (c7wExec (augmented_code "y = 2\n_tmp = 3")).stderrText,
          error := none,
          vars := some ((moduleLocals ++ [("y", "2"), ("_tmp", "3")]).filter
            (fun kv => !(pyStartsWith kv.1 "_"))),
          traceback := none } :=
  C7_variables_mapping c7Parse c7wExec "y = 2\n_tmp = 3"
    (moduleLocals ++ [("y", "2"), ("_tmp", "3")]) (by decide) rfl

/-- C2 counterexample: a three-entry history over the default ceiling is
not compacted to length 1 + min(4, 3) = 4: because the history is shorter
than four entries, `_summarize_memory` preserves nothing and replaces the
whole history with the single summary entry, length 1. -/
theorem C2_counterexample :
    (c2History ++ [mkEntry "user" "hi" "t1"]).length = 3 ∧
    ((c2History ++ [mkEntry "user" "hi" "t1"]).map (fun e => e.content.length)).sum
        / defaultSettings.char_to_token_ratio > defaultSettings.max_memory_tokens ∧
    add_message defaultSettings okSummarizer "t1" "t2" c2History "user" "hi"
      = [summary_entry "R" "t2"] ∧
    ([summary_entry "R" "t2"] : List ConversationEntry).length
      ≠ 1 + min 4 (c2History ++ [mkEntry "user" "hi" "t1"]).length := by
  have hlen3 : (c2History ++ [mkEntry "user" "hi" "t1"]).length = 3 := by
    simp [c2History]
  have hbig : bigContent.length = 4100 := by
    unfold bigContent
    rw [String.length_mk, List.length_replicate]
  have htot : ((c2History ++ [mkEntry "user" "hi" "t1"]).map
      (fun e => e.content.length)).sum = 8202 := by
    simp [c2History, mkEntry, hbig, show ("hi" : String).length = 2 from rfl]
  refine ⟨hlen3, ?_, ?_, ?_⟩
  · rw [htot]
    decide
  · unfold add_message check_and_summarize summarize_memory history_to_summarize_of
      recent_history_of
    rw [hlen3, htot]
    rw [if_neg (by decide : ¬ (3 : Nat) ≤ 2)]
    rw [if_pos (by decide :
      8202 / defaultSettings.char_to_token_ratio > defaultSettings.max_memory_tokens)]
    rw [if_neg (by decide : ¬ (3 : Nat) ≥ 4)]
    rw [show (c2History ++ [mkEntry "user" "hi" "t1"]).isEmpty = false from by
      simp [c2History]]
    simp only [okSummarizer]
    rfl
  · rw [hlen3]
    decide

/-- Helper for C2: with at least five entries and the estimate over the
ceiling, the trigger compacts to the summary entry followed by the last
four entries. -/
theorem check_and_summarize_compacts (st : Settings)
    (summarizer : String → Except String String) (ts : String)
    (l : List ConversationEntry) (summary : String)
    (hlen : l.length ≥ 5)
    (htok : (l.map (fun e => e.content.length)).sum / st.char_to_token_ratio
      > st.max_memory_tokens)
    (hsum : summarizer (summary_prompt (history_to_summarize_of l)) = Except.ok summary) :
    check_and_summarize st summarizer ts l
      = summary_entry summary ts :: l.drop (l.length - 4) := by
  have hlen4 : l.length ≥ 4 := by omega
  have hne : (history_to_summarize_of l).isEmpty = false := by
    unfold history_to_summarize_of
    rw [if_pos hlen4]
    rcases htk : l.take (l.length - 4) with _ | ⟨a, t⟩
    · have hl := congrArg List.length htk
      rw [List.length_take] at hl
      simp at hl
      omega
    · rfl
  have hrec : recent_history_of l = l.drop (l.length - 4) := by
    unfold recent_history_of
    rw [if_pos hlen4]
  unfold check_and_summarize
  rw [if_neg (by omega : ¬ l.length ≤ 2), if_pos htok]
  unfold summarize_memory
  rw [hne, hsum, hrec]
  rfl

/-- C2 amended: when the history after the append has n ≥ 5 entries and
its token estimate exceeds the ceiling, one compaction during
`add_message` yields the system-role summary entry followed by the
preserved last four entries — length 1 + min(4, n) = 5, first entry role
system.  (When n = 3 the whole history is replaced by the summary alone,
length 1, and when n = 4 the compaction is a no-op: the claimed formula
only holds from n = 5 on.) -/
theorem C2_compaction_shape (st : Settings)
    (summarizer : String → Except String String)
    (tsMsg tsSummary role content summary : String) (h : List ConversationEntry)
    (hlen : (h ++ [mkEntry role content tsMsg]).length ≥ 5)
    (htok : ((h ++ [mkEntry role content tsMsg]).map (fun e => e.content.length)).sum
        / st.char_to_token_ratio > st.max_memory_tokens)
    (hsum : summarizer (summary_prompt
        (history_to_summarize_of (h ++ [mkEntry role content tsMsg]))) = Except.ok summary) :
    add_message st summarizer tsMsg tsSummary h role content =
      summary_entry summary tsSummary ::
        (h ++ [mkEntry role content tsMsg]).drop
          ((h ++ [mkEntry role content tsMsg]).length - 4) ∧
    (add_message st summarizer tsMsg tsSummary h role content).length
      = 1 + min 4 (h ++ [mkEntry role content tsMsg]).length ∧
    (add_message st summarizer tsMsg tsSummary h role content).head?.map
      (fun en => en.role) = some "system" := by
  have hmain : add_message st summarizer tsMsg tsSummary h role content
      = summary_entry summary tsSummary ::
        (h ++ [mkEntry role content tsMsg]).drop
          ((h ++ [mkEntry role content tsMsg]).length - 4) := by
    unfold add_message
    exact check_and_summarize_compacts st summarizer tsSummary _ summary hlen htok hsum
  refine ⟨hmain, ?_, ?_⟩
  · rw [hmain]
    simp only [List.length_cons, List.length_drop]
    omega
  · rw [hmain]
    rfl

/-- C2 witness: the amended theorem applied to a five-entry history over a
small configured ceiling. -/
theorem C2_witness :
    add_message { max_memory_tokens := 5, char_to_token_ratio := 1 }
        (fun _ => Except.ok "resumen") "t5" "t6" c2wHistory "user" "mundo" =
      summary_entry "resumen" "t6" ::
        (c2wHistory ++ [mkEntry "user" "mundo" "t5"]).drop
          ((c2wHistory ++ [mkEntry "user" "mundo" "t5"]).length - 4) :=
  (C2_compaction_shape { max_memory_tokens := 5, char_to_token_ratio := 1 }
    (fun _ => Except.ok "resumen") "t5" "t6" "user" "mundo" "resumen" c2wHistory
    (by decide) (by decide) rfl).1

/-- C6: compaction is atomic on failure: when the summarization call
raises, `_summarize_memory` leaves the history exactly as it was, and the
enclosing `add_message` returns just the prior history with the one new
entry appended — nothing is removed, added or modified by the failed
compaction attempt, and the summarizer is not re-invoked. -/
theorem C6_summarization_failure_atomic (st : Settings)
    (summarizer : String → Except String String) (ts1 ts2 role content : String)
    (h : List ConversationEntry) (e : String)
    (hfail : ∀ p, summarizer p = Except.error e) :
    summarize_memory summarizer ts2 (h ++ [mkEntry role content ts1])
      = h ++ [mkEntry role content ts1] ∧
    add_message st summarizer ts1 ts2 h role content = h ++ [mkEntry role content ts1] := by
  have hsm : ∀ l : List ConversationEntry, summarize_memory summarizer ts2 l = l := by
    intro l
    unfold summarize_memory
    rw [hfail]
    split <;> rfl
  refine ⟨hsm _, ?_⟩
  unfold add_message check_and_summarize
  split
  · rfl
  · split
    · exact hsm _
    · rfl

/-- C6 witness: the theorem applied to an always-failing summarizer on a
concrete three-entry history whose estimate is over a zero ceiling, so the
compaction attempt really happens and really fails. -/
theorem C6_witness :
    summarize_memory failSummarizer "t2"
        ([mkEntry "user" "a" "x", mkEntry "assistant" "b" "y"]
          ++ [mkEntry "user" "c" "t1"])
      = [mkEntry "user" "a" "x", mkEntry "assistant" "b" "y"]
          ++ [mkEntry "user" "c" "t1"] ∧
    add_message { max_memory_tokens := 0, char_to_token_ratio := 1 } failSummarizer
        "t1" "t2" [mkEntry "user" "a" "x", mkEntry "assistant" "b" "y"] "user" "c"
      = [mkEntry "user" "a" "x", mkEntry "assistant" "b" "y"]
          ++ [mkEntry "user" "c" "t1"] :=
  C6_summarization_failure_atomic { max_memory_tokens := 0, char_to_token_ratio := 1 }
    failSummarizer "t1" "t2" "user" "c"
    [mkEntry "user" "a" "x", mkEntry "assistant" "b" "y"] "boom" (fun _ => rfl)

/-- C8: a turn never partially mutates the memory: every `add_message`
call either returns the prior history with exactly the one new entry
appended, or replaces it wholesale with the compacted form — one summary
entry followed by the preserved recent entries (the last four of the
appended history, or none when it is shorter than four).  No other shape
is reachable. -/
theorem C8_add_message_shape (st : Settings)
    (summarizer : String → Except String String) (ts1 ts2 role content : String)
    (h : List ConversationEntry) :
    add_message st summarizer ts1 ts2 h role content = h ++ [mkEntry role content ts1] ∨
    ∃ summary : String,
      add_message st summarizer ts1 ts2 h role content =
        summary_entry summary ts2 :: recent_history_of (h ++ [mkEntry role content ts1]) := by
  unfold add_message check_and_summarize summarize_memory
  split
  · exact Or.inl rfl
  · split
    · split
      · exact Or.inl rfl
      · split
        · exact Or.inl rfl
        · exact Or.inr ⟨_, rfl⟩
    · exact Or.inl rfl
